import Mathlib

set_option maxRecDepth 65536

/-!
Verification of the xmodem-fs utilities: a shallow embedding of the
packet analyzer (src/packet_analyzer.py) and of the transfer glue
(src/main.py), together with spec-level models of the parts of the
XMODEM protocol engine that live outside this repository (the engine
itself is the external `xmodem` library; only its callers are here).

Bytes are modelled as `Nat` values below 256; byte strings as `List Nat`.
-/

/-! ## Integrity modes and the frame-length invariant (spec, section 3) -/

/-- Integrity mode of a session: 8-bit additive checksum or CRC-16. -/
inductive Mode where
  | checksum
  | crc16
deriving DecidableEq

/-- Trailer length in bytes: 1 in checksum mode, 2 in CRC mode. -/
def trailerLength : Mode → Nat
  | .checksum => 1
  | .crc16 => 2

/-- Spec invariant: a frame is header, block number, complement, payload,
trailer, hence `3 + blockSize + trailerLength mode` bytes in total. -/
def frameLength (blockSize : Nat) (m : Mode) : Nat :=
  1 + 1 + 1 + blockSize + trailerLength m

/-- Integrity mode a 131-to-133 byte frame must be in, according to the
spec invariant, judging from its observed total length (128-byte payload). -/
def expected_mode_of_length (len : Nat) : Option Mode :=
  if len = frameLength 128 .checksum then some .checksum
  else if len = frameLength 128 .crc16 then some .crc16
  else none

/-! ## CRC-16, from src/packet_analyzer.py, calculate_crc16 -/

/-- One iteration of the inner loop of `calculate_crc16`:
shift left, xor the polynomial 0x1021 if bit 15 was set, mask to 16 bits. -/
def crc_update (crc : Nat) : Nat :=
  if crc &&& 0x8000 ≠ 0 then ((crc <<< 1) ^^^ 0x1021) &&& 0xffff
  else (crc <<< 1) &&& 0xffff

/-- CRC-16 of src/packet_analyzer.py: start from 0, xor each byte into the
top of the register, then run eight shift-and-xor iterations. -/
def calculate_crc16 (data : List Nat) : Nat :=
  data.foldl (fun crc byte => crc_update^[8] (crc ^^^ (byte <<< 8))) 0

/-- Modelled from the spec: one step of the reference bit-serial CRC-16 LFSR
with polynomial 0x1021 - the feedback bit is the xor of the register's most
significant bit with the incoming data bit. -/
def crc16_bit_step (crc : Nat) (b : Bool) : Nat :=
  if Bool.xor (decide (crc &&& 0x8000 ≠ 0)) b then ((crc <<< 1) &&& 0xffff) ^^^ 0x1021
  else (crc <<< 1) &&& 0xffff

/-- The `n` low-order bits of `m`, most significant bit first. -/
def bitsMSB : Nat → Nat → List Bool
  | 0, _ => []
  | n + 1, m => bitsMSB n (m / 2) ++ [decide (m % 2 = 1)]

/-- The eight bits of a byte, most significant bit first. -/
def byteBits (b : Nat) : List Bool := bitsMSB 8 b

/-- Modelled from the spec: the reference bit-serial XMODEM CRC-16 -
initial value 0, no final xor, each byte fed most-significant-bit first
into the LFSR. -/
def crc16_ref (data : List Nat) : Nat :=
  data.foldl (fun crc byte => (byteBits byte).foldl crc16_bit_step crc) 0

/-! ## Packet analyzer, from src/packet_analyzer.py, analyze_xmodem_packet -/

/-- Big-endian interpretation of the two CRC trailer bytes
(source line: crc = (crc_bytes[0] << 8) | crc_bytes[1]). -/
def crc_word (b0 b1 : Nat) : Nat := (b0 <<< 8) ||| b1

/-- Outcome of the trailer analysis for a packet of at least 131 bytes. -/
inductive TrailerReport where
  | crcIndexError : TrailerReport
  | crcChecked (stored expected : Nat) (ok : Bool) : TrailerReport
  | checksumChecked (stored expected : Nat) (ok : Bool) : TrailerReport
  | unknownLength (len : Nat) : TrailerReport
deriving DecidableEq

/-- Everything analyze_xmodem_packet prints about a packet that passes the
minimum-length check. -/
structure Report where
  length : Nat
  soh : Nat
  headerOk : Bool
  blockNum : Nat
  blockInv : Nat
  invOk : Bool
  body : Option TrailerReport
deriving DecidableEq

/-- Early exits of analyze_xmodem_packet. -/
inductive AnalyzeFailure where
  | invalidHex
  | tooShort
deriving DecidableEq

/-- Analysis of a decoded packet, mirroring the source line by line:
packets shorter than 4 bytes are rejected; the data portion is examined
only when the packet has at least 131 bytes; a 132-byte packet is sent
down the CRC branch (which reads the slice packet[131:133] and then
indexes its second element) and a 133-byte packet down the checksum
branch; any other length of at least 131 is reported as unknown. -/
def analyzePacket (packet : List Nat) : Except AnalyzeFailure Report :=
  if packet.length < 4 then .error .tooShort
  else
    let soh := packet.getD 0 0
    let block_num := packet.getD 1 0
    let block_inv := packet.getD 2 0
    let body : Option TrailerReport :=
      if 131 ≤ packet.length then
        let data := (packet.drop 3).take 128
        if packet.length = 132 then
          match (packet.drop 131).take 2 with
          | b0 :: b1 :: _ =>
            let crc := crc_word b0 b1
            let expected := calculate_crc16 data
            some (.crcChecked crc expected (decide (crc = expected)))
          | _ => some .crcIndexError
        else if packet.length = 133 then
          let checksum := packet.getD 131 0
          let expected := data.sum &&& 0xff
          some (.checksumChecked checksum expected (decide (checksum = expected)))
        else some (.unknownLength packet.length)
      else none
    .ok
      { length := packet.length
        soh := soh
        headerOk := decide (soh = 0x01)
        blockNum := block_num
        blockInv := block_inv
        invOk := decide (block_inv = 255 - block_num)
        body := body }

/-- Value of one hexadecimal digit, or none for a non-hex character. -/
def hexVal (c : Char) : Option Nat :=
  if '0' ≤ c ∧ c ≤ '9' then some (c.toNat - 48)
  else if 'a' ≤ c ∧ c ≤ 'f' then some (c.toNat - 87)
  else if 'A' ≤ c ∧ c ≤ 'F' then some (c.toNat - 55)
  else none

/-- bytes.fromhex: pairs of hex digits; odd length or a non-hex digit fails. -/
def hexDecode : List Char → Option (List Nat)
  | [] => some []
  | [_] => none
  | c1 :: c2 :: rest =>
    match hexVal c1, hexVal c2, hexDecode rest with
    | some hi, some lo, some bs => some ((16 * hi + lo) :: bs)
    | _, _, _ => none

/-- Top-level analyze_xmodem_packet: strip spaces, decode the hex string
(rejecting invalid hex before any field access), then analyze the packet. -/
def analyze_xmodem_packet (packet_hex : List Char) : Except AnalyzeFailure Report :=
  match hexDecode (packet_hex.filter (fun c => c ≠ ' ')) with
  | none => .error .invalidHex
  | some packet => analyzePacket packet

/-- Body of an analyzer report, when the analysis got that far. -/
def reportBody : Except AnalyzeFailure Report → Option TrailerReport
  | .ok r => r.body
  | .error _ => none

/-- Header verdict of an analyzer report. -/
def reportHeaderOk : Except AnalyzeFailure Report → Option Bool
  | .ok r => some r.headerOk
  | .error _ => none

/-- Block-number-complement verdict of an analyzer report. -/
def reportInvOk : Except AnalyzeFailure Report → Option Bool
  | .ok r => some r.invOk
  | .error _ => none

/-- Early-exit failure of an analyzer run, if any. -/
def analyzeFailureOf : Except AnalyzeFailure Report → Option AnalyzeFailure
  | .ok _ => none
  | .error e => some e

/-! ## Concrete frames used as evaluation inputs -/

/-- A well-formed checksum-mode frame (132 bytes): SOH, block 1, complement
254, 128 zero payload bytes, checksum byte 0. -/
def packet132 : List Nat := 1 :: 1 :: 254 :: (List.replicate 128 0 ++ [0])

/-- A well-formed CRC-mode frame (133 bytes): SOH, block 1, complement 254,
128 zero payload bytes, CRC trailer 0x0000. -/
def packet133 : List Nat := 1 :: 1 :: 254 :: (List.replicate 128 0 ++ [0, 0])

/-- A 133-byte frame whose trailer byte 5 does not match the payload sum 0. -/
def packet133bad : List Nat := 1 :: 1 :: 254 :: (List.replicate 128 0 ++ [5, 0])

/-- The hex text of 132 zero bytes (264 characters of '0'). -/
def hex132zeros : List Char := List.replicate 264 '0'

/-! ## Retry budget and initial timeout, from src/main.py -/

/-- Default of the --retry option (src/main.py line 357). -/
def retry_default : Nat := 16

/-- Retry budget cmd_send actually passes to modem.send
(source line: retry_count = max(args.retry, 30)). -/
def cmd_send_retry_count (retry : Nat) : Nat := max retry 30

/-- Retry budget cmd_recv actually passes to modem.recv
(source line: retry_count = max(args.retry, 30)). -/
def cmd_recv_retry_count (retry : Nat) : Nat := max retry 30

/-- Initial handshake timeout of cmd_send
(source line: initial_timeout = max(args.timeout * 15, 30.0)). -/
def initial_timeout (timeout : ℚ) : ℚ := max (timeout * 15) 30

/-! ## Sender model - modelled from the spec, sections 4.2 and 4.4
(the engine is the external xmodem library, not part of this repository) -/

/-- Terminal failures of a transfer (spec, section 7). -/
inductive TransferError where
  | handshakeTimeout
  | retryExhausted
  | eotNotAcknowledged
deriving DecidableEq

/-- Modelled from the spec: classification of a handshake probe byte -
0x43 requests CRC mode, NAK 0x15 requests checksum mode. -/
def isProbe (b : Nat) : Option Mode :=
  if b = 0x43 then some .crc16
  else if b = 0x15 then some .checksum
  else none

/-- Modelled from the spec: the sender blocks until it observes a probe
byte among the bytes arriving within the initial window; the first probe
fixes the mode, and none at all means a handshake timeout. -/
def senderHandshake : List Nat → Option Mode
  | [] => none
  | b :: rest =>
    match isProbe b with
    | some m => some m
    | none => senderHandshake rest

/-- Split a file into 128-byte blocks. -/
def chunks128 (l : List Nat) : List (List Nat) :=
  if l = [] then []
  else l.take 128 :: chunks128 (l.drop 128)
termination_by l.length
decreasing_by
  simp only [List.length_drop]
  rename_i h
  have : l.length ≠ 0 := fun hl => h (List.eq_nil_of_length_eq_zero hl)
  omega

/-- Right-pad the final short block with the filler byte 0x1A. -/
def padBlock (block : List Nat) : List Nat :=
  block ++ List.replicate (128 - block.length) 0x1A

/-- Modelled from the spec: the 8-bit additive checksum of a payload. -/
def checksum8 (payload : List Nat) : Nat := payload.sum % 256

/-- Modelled from the spec: the integrity trailer of a frame -
one checksum byte, or the CRC-16 most significant byte first. -/
def frameTrailer (m : Mode) (payload : List Nat) : List Nat :=
  match m with
  | .checksum => [checksum8 payload]
  | .crc16 => [calculate_crc16 payload / 256, calculate_crc16 payload % 256]

/-- Modelled from the spec: encode of the packet codec - header 0x01 for
128-byte blocks, block number, its complement, payload, trailer. -/
def encode (blockNumber : Nat) (payload : List Nat) (m : Mode) : List Nat :=
  0x01 :: blockNumber % 256 :: (255 - blockNumber % 256) :: (payload ++ frameTrailer m payload)

/-- Outcome of a send session: the result and every frame written. -/
structure SendOutcome where
  result : Except TransferError Nat
  writes : List (List Nat)

/-- Modelled from the spec: the sender state machine as observed on the
channel. It blocks in AwaitNegotiation on the handshake; on a handshake
timeout it fails without writing anything; once negotiated it frames the
file into numbered padded blocks followed by EOT (the delivery loop is
taken on its happy path: every frame acknowledged first time). -/
def xmodem_send (received : List Nat) (file : List Nat) : SendOutcome :=
  match senderHandshake received with
  | none => { result := .error .handshakeTimeout, writes := [] }
  | some m =>
    let frames := (List.enumFrom 1 (chunks128 file)).map
      (fun p => encode p.1 (padBlock p.2) m)
    { result := .ok file.length, writes := frames ++ [[0x04]] }

/-! ## Receiver glue, from src/main.py, cmd_recv -/

/-- Contents of the output path and of its temporary .part sibling. -/
structure RecvFs where
  out : Option (List Nat)
  tmp : Option (List Nat)
deriving DecidableEq

/-- How cmd_recv terminates: exit(3) when refusing to overwrite, exit(4)
when the transfer failed or received nothing, success otherwise. -/
inductive RecvResult where
  | refusedOverwrite
  | failed
  | ok (received : Nat)
deriving DecidableEq

/-- Embedding of cmd_recv of src/main.py: refuse to touch an existing
output file unless force is set; otherwise open the temporary .part file
and run the transfer, which writes the payload straight into that file
(modem.recv is handed the raw file handle as its stream, with
callback=None). The received counter starts at 0 and is incremented only
inside write_chunk - a local function that nothing ever calls - so it is
still 0 at the check 'if not ok or received == 0': that branch removes
the .part file and exits(4), and the os.replace success path below it is
unreachable. Intermediate states of the .part file are collapsed to the
state at exit. -/
def cmd_recv (fs : RecvFs) (force ok : Bool) (data : List Nat) : RecvFs × RecvResult :=
  if fs.out.isSome && !force then (fs, .refusedOverwrite)
  else
    let received := 0
    if !ok || received == 0 then ({ out := fs.out, tmp := none }, .failed)
    else ({ out := some data, tmp := none }, .ok received)

/-! ## Bitwise helper lemmas -/

theorem and_ffff_eq_mod (x : Nat) : x &&& 0xffff = x % 2 ^ 16 := by
  have h : (0xffff : Nat) = 2 ^ 16 - 1 := by norm_num
  rw [h, Nat.and_pow_two_sub_one_eq_mod]

theorem and_ffff_of_lt {x : Nat} (h : x < 2 ^ 16) : x &&& 0xffff = x := by
  rw [and_ffff_eq_mod, Nat.mod_eq_of_lt h]

theorem shiftLeft_xor_distrib (x y s : Nat) : (x ^^^ y) <<< s = (x <<< s) ^^^ (y <<< s) := by
  apply Nat.eq_of_testBit_eq
  intro i
  simp only [Nat.testBit_shiftLeft, Nat.testBit_xor]
  by_cases h : s ≤ i <;> simp [h]

theorem mul_two_pow_xor_eq_add (a : Nat) : ∀ (k b : Nat), b < 2 ^ k → (a * 2 ^ k) ^^^ b = a * 2 ^ k + b := by
  intro k
  induction k with
  | zero =>
    intro b hb
    have hb0 : b = 0 := by simpa [Nat.lt_one_iff] using hb
    subst hb0
    simp
  | succ k ih =>
    intro b hb
    have hb2 : b / 2 < 2 ^ k := by
      have hp : 2 ^ (k + 1) = 2 ^ k * 2 := pow_succ 2 k
      omega
    have hbit : (decide (b % 2 = 1)).toNat = b % 2 := by
      rcases Nat.mod_two_eq_zero_or_one b with h | h <;> simp [h]
    have e1 : a * 2 ^ (k + 1) = Nat.bit false (a * 2 ^ k) := by
      rw [Nat.bit_val, pow_succ]
      simp
      ring
    have e2 : b = Nat.bit (decide (b % 2 = 1)) (b / 2) := by
      rw [Nat.bit_val, hbit]
      omega
    rw [e1]
    conv_lhs => rw [e2]
    rw [Nat.xor_bit, Bool.false_bne, ih (b / 2) hb2, Nat.bit_val, hbit]
    have hX : a * 2 ^ (k + 1) = 2 * (a * 2 ^ k) := by
      rw [pow_succ]
      ring
    omega

theorem mul_two_pow_lor_eq_add (a : Nat) : ∀ (k b : Nat), b < 2 ^ k → (a * 2 ^ k) ||| b = a * 2 ^ k + b := by
  intro k
  induction k with
  | zero =>
    intro b hb
    have hb0 : b = 0 := by simpa [Nat.lt_one_iff] using hb
    subst hb0
    simp
  | succ k ih =>
    intro b hb
    have hb2 : b / 2 < 2 ^ k := by
      have hp : 2 ^ (k + 1) = 2 ^ k * 2 := pow_succ 2 k
      omega
    have hbit : (decide (b % 2 = 1)).toNat = b % 2 := by
      rcases Nat.mod_two_eq_zero_or_one b with h | h <;> simp [h]
    have e1 : a * 2 ^ (k + 1) = Nat.bit false (a * 2 ^ k) := by
      rw [Nat.bit_val, pow_succ]
      simp
      ring
    have e2 : b = Nat.bit (decide (b % 2 = 1)) (b / 2) := by
      rw [Nat.bit_val, hbit]
      omega
    rw [e1]
    conv_lhs => rw [e2]
    rw [Nat.lor_bit, Bool.false_or, ih (b / 2) hb2, Nat.bit_val, hbit]
    have hX : a * 2 ^ (k + 1) = 2 * (a * 2 ^ k) := by
      rw [pow_succ]
      ring
    omega

theorem and_8000_xor_lo {y : Nat} (hy : y < 2 ^ 15) (x : Nat) :
    (x ^^^ y) &&& 0x8000 = x &&& 0x8000 := by
  rw [Nat.and_xor_distrib_right]
  have h0 : y &&& 0x8000 = 0 := by
    have h1 : (0x8000 : Nat) = 2 ^ 15 := by norm_num
    rw [h1, Nat.and_two_pow, Nat.testBit_eq_false_of_lt hy]
    simp
  rw [h0, Nat.xor_zero]

theorem crc_update_xor {y : Nat} (hy : y < 2 ^ 15) (x : Nat) :
    crc_update (x ^^^ y) = crc_update x ^^^ (y <<< 1) := by
  have hcond := and_8000_xor_lo hy x
  have hy1 : y <<< 1 < 2 ^ 16 := by
    rw [Nat.shiftLeft_eq]
    norm_num at hy ⊢
    omega
  unfold crc_update
  rw [hcond]
  have hs : (x ^^^ y) <<< 1 = (x <<< 1) ^^^ (y <<< 1) := shiftLeft_xor_distrib x y 1
  split
  · rw [hs]
    have hre : ((x <<< 1) ^^^ (y <<< 1)) ^^^ 0x1021 = ((x <<< 1) ^^^ 0x1021) ^^^ (y <<< 1) := by
      rw [Nat.xor_assoc, Nat.xor_assoc, Nat.xor_comm (y <<< 1)]
    rw [hre, Nat.and_xor_distrib_right, and_ffff_of_lt hy1]
  · rw [hs, Nat.and_xor_distrib_right, and_ffff_of_lt hy1]

theorem crc_update_iterate_xor : ∀ (n x y : Nat), y <<< n < 2 ^ 16 →
    crc_update^[n] (x ^^^ y) = crc_update^[n] x ^^^ (y <<< n) := by
  intro n
  induction n with
  | zero =>
    intro x y _
    simp
  | succ n ih =>
    intro x y hy
    have hy15 : y < 2 ^ 15 := by
      rw [Nat.shiftLeft_eq] at hy
      have h2 : 2 ≤ 2 ^ (n + 1) := by
        calc 2 = 2 ^ 1 := by norm_num
        _ ≤ 2 ^ (n + 1) := Nat.pow_le_pow_right (by norm_num) (by omega)
      have hmul : y * 2 ≤ y * 2 ^ (n + 1) := Nat.mul_le_mul (le_refl y) h2
      norm_num at *
      omega
    have hcomp : (y <<< 1) <<< n = y <<< (n + 1) := by
      rw [← Nat.shiftLeft_add, Nat.add_comm]
    rw [Function.iterate_succ_apply, Function.iterate_succ_apply, crc_update_xor hy15,
      ih (crc_update x) (y <<< 1) (by rw [hcomp]; exact hy), hcomp]

theorem crc_update_xor_top (x : Nat) (b : Bool) :
    crc_update (x ^^^ (if b then 0x8000 else 0)) = crc16_bit_step x b := by
  have hmask : ∀ z : Nat, ((z ^^^ 0x1021) &&& 0xffff) = (z &&& 0xffff) ^^^ 0x1021 := by
    intro z
    rw [Nat.and_xor_distrib_right]
    have h1021 : (0x1021 : Nat) &&& 0xffff = 0x1021 := by decide
    rw [h1021]
  cases b with
  | false =>
    have h0 : (if (false : Bool) then (0x8000 : Nat) else 0) = 0 := rfl
    rw [h0, Nat.xor_zero]
    unfold crc_update crc16_bit_step
    rw [Bool.xor_false]
    by_cases h : x &&& 0x8000 ≠ 0
    · rw [if_pos h, if_pos (decide_eq_true h)]
      exact hmask (x <<< 1)
    · rw [if_neg h, if_neg (by simp [h])]
  | true =>
    have h8 : (if (true : Bool) then (0x8000 : Nat) else 0) = 0x8000 := rfl
    rw [h8]
    unfold crc_update crc16_bit_step
    rw [Bool.xor_true]
    have hcond : (x ^^^ 0x8000) &&& 0x8000 = (x &&& 0x8000) ^^^ 0x8000 := by
      rw [Nat.and_xor_distrib_right, Nat.and_self]
    have hshift : ((x ^^^ 0x8000) <<< 1) &&& 0xffff = (x <<< 1) &&& 0xffff := by
      rw [shiftLeft_xor_distrib, Nat.and_xor_distrib_right]
      have hz : ((0x8000 : Nat) <<< 1) &&& 0xffff = 0 := by decide
      rw [hz, Nat.xor_zero]
    have htwo : x &&& 0x8000 = 0 ∨ x &&& 0x8000 = 0x8000 := by
      have h1 : (0x8000 : Nat) = 2 ^ 15 := by norm_num
      rw [h1, Nat.and_two_pow]
      cases x.testBit 15 <;> simp
    rcases htwo with h | h
    · rw [hcond, h, Nat.zero_xor]
      rw [if_pos (by norm_num), if_pos (by simp [h])]
      rw [hmask ((x ^^^ 0x8000) <<< 1), hshift]
    · rw [hcond, h, Nat.xor_self]
      rw [if_neg (by norm_num), if_neg (by simp [h])]
      exact hshift

theorem bitsMSB_foldl : ∀ (n : Nat), n ≤ 16 → ∀ (crc m : Nat), m < 2 ^ n →
    crc_update^[n] (crc ^^^ (m <<< (16 - n))) = (bitsMSB n m).foldl crc16_bit_step crc := by
  intro n
  induction n with
  | zero =>
    intro _ crc m hm
    have hm0 : m = 0 := by simpa [Nat.lt_one_iff] using hm
    subst hm0
    simp [bitsMSB]
  | succ n ih =>
    intro hn crc m hm
    have hn' : n ≤ 16 := by omega
    have hm2 : m / 2 < 2 ^ n := by
      have hp : 2 ^ (n + 1) = 2 ^ n * 2 := pow_succ 2 n
      omega
    have h15 : 16 - (n + 1) = 15 - n := by omega
    have h16 : 16 - n = (15 - n) + 1 := by omega
    have e1 : (m / 2 * 2) ^^^ (m % 2) = m / 2 * 2 + m % 2 := by
      have h := mul_two_pow_xor_eq_add (m / 2) 1 (m % 2) (by omega)
      simpa using h
    have e0 : m / 2 * 2 + m % 2 = m := by omega
    have hsplit : m <<< (16 - (n + 1)) = ((m / 2) <<< (16 - n)) ^^^ ((m % 2) <<< (15 - n)) := by
      rw [h15, h16]
      calc m <<< (15 - n)
          = (m / 2 * 2 + m % 2) <<< (15 - n) := by rw [e0]
        _ = ((m / 2 * 2) ^^^ (m % 2)) <<< (15 - n) := by rw [e1]
        _ = ((m / 2 * 2) <<< (15 - n)) ^^^ ((m % 2) <<< (15 - n)) :=
            shiftLeft_xor_distrib (m / 2 * 2) (m % 2) (15 - n)
        _ = ((m / 2) <<< ((15 - n) + 1)) ^^^ ((m % 2) <<< (15 - n)) := by
            simp only [Nat.shiftLeft_eq, pow_succ]
            congr 1
            ring
    rw [hsplit, ← Nat.xor_assoc, Function.iterate_succ_apply']
    have hyn : ((m % 2) <<< (15 - n)) <<< n < 2 ^ 16 := by
      rw [← Nat.shiftLeft_add]
      have he : (15 - n) + n = 15 := by omega
      rw [he, Nat.shiftLeft_eq]
      have h1 : m % 2 ≤ 1 := by omega
      norm_num
      omega
    rw [crc_update_iterate_xor n (crc ^^^ (m / 2) <<< (16 - n)) ((m % 2) <<< (15 - n)) hyn]
    have he15 : ((m % 2) <<< (15 - n)) <<< n = (m % 2) <<< 15 := by
      rw [← Nat.shiftLeft_add]
      congr 1
      omega
    rw [he15]
    have hiff : (m % 2) <<< 15 = if decide (m % 2 = 1) then 0x8000 else 0 := by
      rcases Nat.mod_two_eq_zero_or_one m with h | h <;> rw [h] <;> simp [Nat.shiftLeft_eq]
    rw [hiff, crc_update_xor_top, ih hn' crc (m / 2) hm2]
    rw [show bitsMSB (n + 1) m = bitsMSB n (m / 2) ++ [decide (m % 2 = 1)] from rfl]
    rw [List.foldl_append]
    rfl

theorem crc16_foldl_eq_ref : ∀ (data : List Nat) (crc : Nat), (∀ b ∈ data, b < 256) →
    data.foldl (fun c byte => crc_update^[8] (c ^^^ (byte <<< 8))) crc
      = data.foldl (fun c byte => (byteBits byte).foldl crc16_bit_step c) crc := by
  intro data
  induction data with
  | nil =>
    intro crc _
    rfl
  | cons b rest ih =>
    intro crc h
    simp only [List.foldl_cons]
    have hb : b < 2 ^ 8 := by
      have := h b (by simp)
      norm_num
      exact this
    have h8 : crc_update^[8] (crc ^^^ (b <<< 8)) = (byteBits b).foldl crc16_bit_step crc := by
      have hx := bitsMSB_foldl 8 (by norm_num) crc b hb
      norm_num at hx
      exact hx
    rw [h8]
    exact ih _ (fun x hx => h x (by simp [hx]))

/-! ## Claim theorems -/

/-- C1: the frame-length invariant gives 3 + 128 + 1 = 132 bytes for a
checksum-mode frame and 3 + 128 + 2 = 133 bytes for a CRC-mode frame, but
analyze_xmodem_packet classifies the lengths the other way around: it sends
a 132-byte frame down the CRC branch (where reading the second trailer byte
raises IndexError) and a 133-byte frame down the checksum branch. The
analyzer's classification therefore disagrees with the invariant: code bug. -/
theorem C1_frame_length_vs_analyzer :
    (frameLength 128 .checksum = 132 ∧ frameLength 128 .crc16 = 133) ∧
    expected_mode_of_length packet132.length = some .checksum ∧
    reportBody (analyzePacket packet132) = some .crcIndexError ∧
    expected_mode_of_length packet133.length = some .crc16 ∧
    reportBody (analyzePacket packet133) = some (.checksumChecked 0 0 true) := by
  exact ⟨⟨rfl, rfl⟩, by decide, by decide, by decide, by decide⟩

/-- C2 counterexample: with the default configuration retry = 16, the budget
passed to the modem is max(16, 30) = 30, not the configured 16. -/
theorem C2_counterexample :
    cmd_send_retry_count retry_default ≠ retry_default ∧
    cmd_recv_retry_count retry_default ≠ retry_default := by
  decide

/-- C2 (amended): the per-block retry budget consulted by send and recv is
the configured value clamped from below to 30 - the configured value itself
when it is at least 30, and 30 otherwise; the configurable default is 16. -/
theorem C2_retry_budget_clamped (retry : Nat) :
    cmd_send_retry_count retry = (if retry < 30 then 30 else retry) ∧
    cmd_recv_retry_count retry = (if retry < 30 then 30 else retry) ∧
    retry_default = 16 := by
  have h : max retry 30 = if retry < 30 then 30 else retry := by
    rw [Nat.max_def]
    by_cases hr : retry ≤ 30
    · rw [if_pos hr]
      by_cases hr2 : retry < 30
      · rw [if_pos hr2]
      · rw [if_neg hr2]
        omega
    · rw [if_neg hr, if_neg (by omega)]
  exact ⟨h, h, rfl⟩

/-- C3: calculate_crc16 agrees with the reference bit-serial XMODEM CRC-16
(polynomial 0x1021, initial value 0, no final xor, bytes processed most
significant bit first) on every byte sequence, and the analyzer reads the
two-byte CRC trailer most significant byte first. -/
theorem C3_crc16_matches_reference (data : List Nat) (h : ∀ b ∈ data, b < 256) :
    calculate_crc16 data = crc16_ref data ∧
    ∀ b0 b1 : Nat, b1 < 256 → crc_word b0 b1 = 256 * b0 + b1 := by
  constructor
  · exact crc16_foldl_eq_ref data 0 h
  · intro b0 b1 hb1
    unfold crc_word
    rw [Nat.shiftLeft_eq]
    have hl := mul_two_pow_lor_eq_add b0 8 b1 (by norm_num; exact hb1)
    rw [hl]
    ring

/-- C3 witness: the equivalence evaluated on the bytes 0x31 0x32 0x33 and
the trailer interpretation on the pair 0xAB 0xCD. -/
theorem C3_crc16_matches_reference_witness :
    calculate_crc16 [0x31, 0x32, 0x33] = crc16_ref [0x31, 0x32, 0x33] ∧
    crc_word 0xAB 0xCD = 256 * 0xAB + 0xCD :=
  ⟨(C3_crc16_matches_reference [0x31, 0x32, 0x33] (by decide)).1,
   (C3_crc16_matches_reference [0x31, 0x32, 0x33] (by decide)).2 0xAB 0xCD (by decide)⟩

/-- C4: on every packet the analyzer examines in checksum mode, the
recomputed trailer is the sum of the 128 payload bytes modulo 256 and a
mismatch is reported exactly when the stored trailer byte differs from it. -/
theorem C4_checksum_trailer (packet : List Nat) (h : packet.length = 133) :
    reportBody (analyzePacket packet) =
      some (.checksumChecked (packet.getD 131 0) (((packet.drop 3).take 128).sum % 256)
        (decide (packet.getD 131 0 = ((packet.drop 3).take 128).sum % 256))) := by
  have hmod : ((packet.drop 3).take 128).sum &&& 0xff = ((packet.drop 3).take 128).sum % 256 := by
    have h8 : (0xff : Nat) = 2 ^ 8 - 1 := by norm_num
    rw [h8, Nat.and_pow_two_sub_one_eq_mod]
  unfold analyzePacket reportBody
  rw [if_neg (by omega)]
  simp only [h, hmod]
  rw [if_pos (by norm_num), if_neg (by norm_num), if_pos trivial]

/-- C4 witness: a 133-byte frame with zero payload and trailer byte 5 is
reported as a mismatch against the recomputed sum 0. -/
theorem C4_checksum_trailer_witness :
    reportBody (analyzePacket packet133bad) =
      some (.checksumChecked (packet133bad.getD 131 0)
        (((packet133bad.drop 3).take 128).sum % 256)
        (decide (packet133bad.getD 131 0 = ((packet133bad.drop 3).take 128).sum % 256))) :=
  C4_checksum_trailer packet133bad (by decide)

/-- C5: for every packet of byte values, block-number verification succeeds
exactly when blockNumber plus its complement equals 255; any other
complement is flagged as a block-number inversion error. -/
theorem C5_block_complement (packet : List Nat) (h4 : 4 ≤ packet.length)
    (hb : packet.getD 1 0 ≤ 255) :
    reportInvOk (analyzePacket packet) =
      some (decide (packet.getD 1 0 + packet.getD 2 0 = 255)) := by
  unfold analyzePacket reportInvOk
  rw [if_neg (by omega)]
  have hdec : decide (packet.getD 2 0 = 255 - packet.getD 1 0)
      = decide (packet.getD 1 0 + packet.getD 2 0 = 255) := by
    rw [decide_eq_decide]
    omega
  simp only [hdec]

/-- C5 witness: block number 3 with complement 252 verifies. -/
theorem C5_block_complement_witness :
    reportInvOk (analyzePacket [1, 3, 252, 26]) =
      some (decide ((([1, 3, 252, 26] : List Nat).getD 1 0)
        + (([1, 3, 252, 26] : List Nat).getD 2 0) = 255)) :=
  C5_block_complement [1, 3, 252, 26] (by decide) (by decide)

/-- C6 counterexample: a 1024-byte-block frame headed by STX 0x02 is
reported as a header error by the analyzer, contradicting the claim that
header validation accepts 0x02 as the 1024-byte block marker. -/
theorem C6_counterexample :
    reportHeaderOk (analyzePacket (2 :: 1 :: 254 :: (List.replicate 1024 0 ++ [0, 0])))
      = some false := by
  decide

/-- C6 (amended): the analyzer's header validation accepts exactly the
header byte 0x01 (SOH); every other header value, 0x02 (STX) included, is
reported as a header error. -/
theorem C6_header_only_soh (packet : List Nat) (h4 : 4 ≤ packet.length) :
    reportHeaderOk (analyzePacket packet) = some (decide (packet.getD 0 0 = 0x01)) := by
  unfold analyzePacket reportHeaderOk
  rw [if_neg (by omega)]

/-- C6 witness: a short SOH frame is accepted by header validation. -/
theorem C6_header_only_soh_witness :
    reportHeaderOk (analyzePacket [1, 1, 254, 26])
      = some (decide ((([1, 1, 254, 26] : List Nat).getD 0 0) = 0x01)) :=
  C6_header_only_soh [1, 1, 254, 26] (by decide)

/-- C7: when no probe byte (NAK or 'C') arrives within the initial window,
send fails with a handshake timeout and nothing at all has been written to
the channel. -/
theorem C7_handshake_timeout_no_writes (received file : List Nat)
    (h : senderHandshake received = none) :
    (xmodem_send received file).result = .error .handshakeTimeout ∧
    (xmodem_send received file).writes = [] := by
  unfold xmodem_send
  rw [h]
  exact ⟨rfl, rfl⟩

/-- C7 witness: a channel that delivers only noise bytes 13, 10, 65. -/
theorem C7_handshake_timeout_no_writes_witness :
    senderHandshake [13, 10, 65] = none ∧
    (xmodem_send [13, 10, 65] [1, 2, 3]).result = .error .handshakeTimeout ∧
    (xmodem_send [13, 10, 65] [1, 2, 3]).writes = [] :=
  ⟨by decide, (C7_handshake_timeout_no_writes [13, 10, 65] [1, 2, 3] (by decide)).1,
   (C7_handshake_timeout_no_writes [13, 10, 65] [1, 2, 3] (by decide)).2⟩

/-- C8: for every positive steady-state timeout t, the initial handshake
timeout max(t * 15, 30) is strictly greater than t. -/
theorem C8_initial_timeout_exceeds (t : ℚ) (h : 0 < t) : t < initial_timeout t := by
  unfold initial_timeout
  have h15 : t < t * 15 := by nlinarith
  exact lt_of_lt_of_le h15 (le_max_left _ _)

/-- C8 witness: at the default timeout 3 the initial window is larger. -/
theorem C8_initial_timeout_exceeds_witness :
    (0 : ℚ) < 3 ∧ (3 : ℚ) < initial_timeout 3 :=
  ⟨by norm_num, C8_initial_timeout_exceeds 3 (by norm_num)⟩

/-- C9: cmd_recv never renames the .part file onto the output path. Its
received counter is incremented only by the never-called write_chunk, so
the failure check 'not ok or received == 0' is always taken: every
invocation that passes the overwrite guard deletes the .part file and
exits(4), even one whose transfer succeeded with a full payload - the
output path is never modified by any invocation, contradicting the
claim's rename-on-success half: code bug. -/
theorem C9_recv_success_never_updates_output :
    (∀ (fs : RecvFs) (force ok : Bool) (data : List Nat),
      (cmd_recv fs force ok data).1.out = fs.out ∧
      ∀ n, (cmd_recv fs force ok data).2 ≠ .ok n) ∧
    cmd_recv { out := none, tmp := none } false true (List.replicate 128 1)
      = ({ out := none, tmp := none }, .failed) := by
  constructor
  · intro fs force ok data
    unfold cmd_recv
    cases h : fs.out.isSome && !force <;> simp [h]
  · rfl

/-- C10: the analyzer is not total - on the hex text of any 132-byte packet
it enters the CRC branch, whose two-byte trailer slice holds a single byte,
and indexing its second element raises IndexError; short and non-hex inputs
are, as the claim says, rejected up front, but the claimed absence of
out-of-range accesses fails: code bug. -/
theorem C10_analyzer_index_error :
    analyzeFailureOf (analyze_xmodem_packet ['x', 'y']) = some .invalidHex ∧
    analyzeFailureOf (analyze_xmodem_packet ['0', '1', '0', '2']) = some .tooShort ∧
    reportBody (analyze_xmodem_packet hex132zeros) = some .crcIndexError := by
  exact ⟨by decide, by decide, by decide⟩
